import Mathlib

/-!
Shallow embedding of the RBAC core of the mohspitality backend
(src/app/services/profile_service.py, src/app/models/user_models.py,
src/app/routers/user_router.py) and proofs about the claims on it.

The database session is modelled as an explicit `Store` value threaded
through each operation; a Python exception is modelled as the `.error`
side of `Except Err`.  Timestamps (`created_at`, `updated_at`) are not
modelled: no claim mentions them.
-/

namespace Mohspitality

/-- UserType enum of src/app/schemas/user_schema.py (COMPANY, GUEST, STAFF). -/
inductive UserType where
  | company
  | guest
  | staff
deriving DecidableEq

/-- A permission record (`Permission` model: id, name, description), and also the
shape of the dict snapshot `get_permission_by_name` builds from one. -/
structure Permission where
  id : Nat
  name : String
  description : String
deriving DecidableEq

/-- `Role` model: id, name, company_id, user_permissions (a JSON list holding
permission-dict snapshots). `created_at` is not modelled. -/
structure Role where
  id : Nat
  name : String
  company_id : String
  user_permissions : List Permission
deriving DecidableEq

/-- The subset of the `User` model the RBAC core reads: id, user_type,
nullable company_id, nullable role_id, and the loaded `role` relationship. -/
structure User where
  id : String
  user_type : UserType
  company_id : Option String
  role_id : Option Nat
  role : Option Role
deriving DecidableEq

/-- `Department` model: id, name, company_id; unique constraint
`department_name` on (name, company_id). -/
structure Department where
  id : Nat
  name : String
  company_id : String
deriving DecidableEq

/-- `Outlet` model: id, name, company_id; unique constraint `outlet_name`
on (name, company_id). -/
structure Outlet where
  id : Nat
  name : String
  company_id : String
deriving DecidableEq

/-- `NoPost` model: id, company_id, no_post_list.  The company id is kept as
an `Option` because the service computes it from a nullable column. -/
structure NoPost where
  id : Nat
  company_id : Option String
  no_post_list : String
deriving DecidableEq

/-- Request payload `StaffRoleCreate` (a role name). -/
structure StaffRoleCreate where
  name : String
deriving DecidableEq

/-- Request payload `DepartmentCreate` (also used for outlets in the source). -/
structure DepartmentCreate where
  name : String
deriving DecidableEq

/-- Request payload `NoPostCreate` of src/app/schemas/room_schema.py: its one
field is `no_post_list`. -/
structure NoPostCreate where
  no_post_list : String
deriving DecidableEq

/-- The dict `create_staff_role` returns on success: id, name, company_id. -/
structure RoleOut where
  id : Nat
  name : String
  company_id : String
deriving DecidableEq

/-- The exceptions the embedded code can raise: fastapi `HTTPException`
(status code and detail), a plain `Exception(message)`, a Python
`AttributeError`, and sqlalchemy `MultipleResultsFound`. -/
inductive Err where
  | httpException (statusCode : Nat) (detail : String)
  | exc (msg : String)
  | attributeError (msg : String)
  | multipleResults
deriving DecidableEq

/-- The database state: one list per table the RBAC core touches.  `fault`
models the environment: when set, the next insert raises an exception with
that text instead of committing (a store-level failure that is not the
modelled uniqueness violation). -/
structure Store where
  permissions : List Permission
  roles : List Role
  users : List User
  departments : List Department
  outlets : List Outlet
  no_posts : List NoPost
  fault : Option String := none
deriving DecidableEq

/-- Autoincrement id for a new row, given the ids already in the table. -/
def nextId (ids : List Nat) : Nat := ids.foldr max 0 + 1

/-- `result.scalar_one_or_none()`: none for no row, the row when unique,
`MultipleResultsFound` otherwise. -/
def scalarOneOrNone {α : Type} (l : List α) : Except Err (Option α) :=
  match l with
  | [] => .ok none
  | [a] => .ok (some a)
  | _ :: _ :: _ => .error .multipleResults

/-- The effective company of a request, as each service computes it:
`current_user.id if current_user.user_type == UserType.COMPANY else
current_user.company_id`. -/
def effectiveCompany (u : User) : Option String :=
  if u.user_type = UserType.company then some u.id else u.company_id

/-- Substring test on char lists (Python `in` on strings). -/
def containsSub (needle : List Char) : List Char → Bool
  | [] => needle.isEmpty
  | c :: cs => needle.isPrefixOf (c :: cs) || containsSub needle cs

/-- Python `needle in hay` on strings. -/
def strContains (hay needle : String) : Bool :=
  containsSub needle.toList hay.toList

/-- Python regex `\w`: letters, digits or underscore (our inputs are ASCII). -/
def isWordChar (c : Char) : Bool := c.isAlphanum || c == '_'

/-- Maximal leading run of word characters and the rest of the input. -/
def takeWordRun : List Char → List Char × List Char
  | [] => ([], [])
  | c :: cs =>
    if isWordChar c then
      let p := takeWordRun cs
      (c :: p.1, p.2)
    else ([], c :: cs)

/-- Drop `pre` from the front of `s` when it is a prefix, else nothing. -/
def dropPrefixChars : List Char → List Char → Option (List Char)
  | [], s => some s
  | _ :: _, [] => none
  | a :: as, b :: bs => if a == b then dropPrefixChars as bs else none

/-- One attempted match of the pattern `Key \((\w+)\)=\((\w+)\)` starting
exactly at the head of the input.  `\w+` is greedy and `)` is not a word
character, so taking the maximal run and then requiring the closer is
exactly the regex's backtracking behavior. -/
def matchKeyValAt (s : List Char) : Option (String × String) :=
  match dropPrefixChars ("Key (".toList) s with
  | none => none
  | some s1 =>
    match takeWordRun s1 with
    | ([], _) => none
    | (k, s2) =>
      match dropPrefixChars (")=(".toList) s2 with
      | none => none
      | some s3 =>
        match takeWordRun s3 with
        | ([], _) => none
        | (v, s4) =>
          match s4 with
          | ')' :: _ => some (String.mk k, String.mk v)
          | _ => none

/-- Scan for the first position where `matchKeyValAt` succeeds. -/
def searchKeyVal : List Char → Option (String × String)
  | [] => matchKeyValAt []
  | c :: cs =>
    match matchKeyValAt (c :: cs) with
    | some r => some r
    | none => searchKeyVal cs

/-- Python `re.search(r"Key \((\w+)\)=\((\w+)\)", detail)`, as the three
create handlers use it. -/
def reSearchKeyVal (s : String) : Option (String × String) :=
  searchKeyVal s.toList

/-- Environment model: the error text SQLAlchemy's asyncpg driver produces for
a PostgreSQL unique-constraint violation on one of the composite
`(name, company_id)` constraints of this schema.  It carries the wrapped
exception class name `UniqueViolationError`, the constraint name, and
PostgreSQL's detail line `Key (name, company_id)=(values) already exists.` -/
def pgUniqueViolationMsg (constraint nm cid : String) : String :=
  "(sqlalchemy.dialects.postgresql.asyncpg.IntegrityError) <class " ++
    "'asyncpg.exceptions.UniqueViolationError'>: duplicate key value violates " ++
    "unique constraint \"" ++ constraint ++ "\" DETAIL:  Key (name, company_id)=(" ++
    nm ++ ", " ++ cid ++ ") already exists."

/-- Python message of the `AttributeError` raised by `permission.id` when
`scalar_one_or_none()` returned `None` (profile_service.py line 30). -/
def noneTypeIdMsg : String := "'NoneType' object has no attribute 'id'"

/-- Python `str.lower()` (the names here are ASCII), character by character. -/
def pyLower (s : String) : String := String.mk (s.toList.map Char.toLower)

/-- `generate_permission(action, resource)` (profile_service.py lines 22-23):
the enum member values interpolated as `"{action}_{resource}"`.  The enum
member values are passed as strings because `ActionEnum`/`ResourceEnum` are
imported from app.schemas.user_schema but their definitions are not in src. -/
def generate_permission (action resource : String) : String :=
  action ++ "_" ++ resource

/-- The `(action, resource)` pairs in the order the nested
`for action in ActionEnum: for resource in ResourceEnum:` loop visits them. -/
def crossPairs : List String → List String → List (String × String)
  | [], _ => []
  | a :: as, rs => rs.map (fun r => (a, r)) ++ crossPairs as rs

/-- The full target set of permission names, `"{action}_{resource}"` for every
pair of the two enumerations. -/
def permNames (actions resources : List String) : List String :=
  (crossPairs actions resources).map (fun ar => generate_permission ar.1 ar.2)

/-- The records `pre_create_permissions` builds for the missing names, with
autoincrement ids assigned from `base`: name `"{action}_{resource}"`,
description `"{action} {resource}"`. -/
def numberFrom (base : Nat) : List (String × String) → List Permission
  | [] => []
  | ar :: rest =>
    { id := base, name := generate_permission ar.1 ar.2,
      description := ar.1 ++ " " ++ ar.2 } :: numberFrom (base + 1) rest

/-- The pairs whose generated name is not among the existing permission
names: the existence check `if permission_name not in existing_permissions`
of `pre_create_permissions`. -/
def missingPairs (actions resources : List String) (s : Store) :
    List (String × String) :=
  (crossPairs actions resources).filter
    (fun ar => !((s.permissions.map (fun p => p.name)).contains
      (generate_permission ar.1 ar.2)))

/-- `pre_create_permissions` (profile_service.py lines 69-91): read the
existing permission names, build a record for every `(action, resource)` pair
whose name is not among them, and insert those records; returns the new state
and how many records were inserted (zero when nothing was missing, in which
case nothing is committed). -/
def pre_create_permissions (actions resources : List String) (s : Store) :
    Store × Nat :=
  let fresh := numberFrom (nextId (s.permissions.map (fun p => p.id)))
    (missingPairs actions resources s)
  if fresh.isEmpty then (s, 0)
  else ({ s with permissions := s.permissions ++ fresh }, fresh.length)

/-- `get_permission_by_name` (profile_service.py lines 26-34): select the
permission by name; building the result dict reads `permission.id`, so when
no row matched (`scalar_one_or_none()` returned None) Python raises
`AttributeError: 'NoneType' object has no attribute 'id'`. -/
def get_permission_by_name (name : String) (s : Store) : Except Err Permission :=
  match scalarOneOrNone (s.permissions.filter (fun p => p.name == name)) with
  | .error e => .error e
  | .ok none => .error (.attributeError noneTypeIdMsg)
  | .ok (some p) => .ok { id := p.id, name := p.name, description := p.description }

/-- `has_permission` (profile_service.py lines 94-100): false when the user
has no role or the role's permission list is empty, otherwise true iff some
entry's `name` equals the required permission.  A pure Bool-valued function
of its two arguments. -/
def has_permission (user : User) (required_permission : String) : Bool :=
  match user.role with
  | none => false
  | some role =>
    if role.user_permissions.isEmpty then false
    else role.user_permissions.any (fun perm => perm.name == required_permission)

/-- `check_permission` (profile_service.py lines 103-108): raise
`HTTPException(403, "Permission denied: {required_permission}")` when
`has_permission` is false. -/
def check_permission (user : User) (required_permission : String) :
    Except Err Unit :=
  if has_permission user required_permission = false then
    .error (.httpException 403 ("Permission denied: " ++ required_permission))
  else .ok ()

/-- Insert a `Role` row (db.add + commit in `create_staff_role`): raises the
store's fault when one is pending, raises the PostgreSQL unique-violation
message for constraint `role_name` when `(name, company_id)` already exists,
else appends the row with an autoincrement id and empty permission list. -/
def insertRole (s : Store) (nm cid : String) : Except String (Role × Store) :=
  match s.fault with
  | some m => .error m
  | none =>
    if s.roles.any (fun r => r.name == nm && r.company_id == cid) then
      .error (pgUniqueViolationMsg "role_name" nm cid)
    else
      let r : Role := { id := nextId (s.roles.map (fun r => r.id)), name := nm,
                        company_id := cid, user_permissions := [] }
      .ok (r, { s with roles := s.roles ++ [r] })

/-- `create_staff_role` (profile_service.py lines 253-285): company users
only; inserts the role with the lower-cased name, scoped to
`current_user.id`.  The except block re-raises a typed message only when the
error text contains `UniqueViolationError` and `role_name` AND the regex
`Key \((\w+)\)=\((\w+)\)` finds a match; otherwise it completes without
raising and the function returns `None`. -/
def create_staff_role (data : StaffRoleCreate) (current_user : User) (s : Store) :
    Except Err (Option RoleOut × Store) :=
  if current_user.user_type ≠ UserType.company then
    .error (.exc "Permission denied! Company admin only")
  else
    match insertRole s (pyLower data.name) current_user.id with
    | .ok (r, s2) =>
      .ok (some { id := r.id, name := r.name, company_id := r.company_id }, s2)
    | .error e =>
      if strContains e "UniqueViolationError" && strContains e "role_name" then
        match reSearchKeyVal e with
        | some kv =>
          .error (.exc ("A role with this " ++ kv.1 ++ " '" ++ kv.2 ++
            "' already exists for this company"))
        | none => .ok (none, s)
      else .ok (none, s)

/-- Resolve each name in order through `get_permission_by_name`, as the loop
in `update_role_with_permissions` does; the first failure propagates. -/
def resolvePermissions (s : Store) : List String → Except Err (List Permission)
  | [] => .ok []
  | n :: rest =>
    match get_permission_by_name n s with
    | .error e => .error e
    | .ok p =>
      match resolvePermissions s rest with
      | .error e => .error e
      | .ok ps => .ok (p :: ps)

/-- `update_role_with_permissions` (profile_service.py lines 288-310): select
the role by `(company_id == current_user.id, id == role_id)`; raise when
there is none; resolve every requested name (an exception there aborts the
whole call before any assignment or commit); on success replace the role's
permission list with the resolved snapshot list and commit. -/
def update_role_with_permissions (role_id : Nat) (data : List String)
    (current_user : User) (s : Store) : Except Err (Role × Store) :=
  match scalarOneOrNone (s.roles.filter
      (fun r => r.company_id == current_user.id && r.id == role_id)) with
  | .error e => .error e
  | .ok none => .error (.exc "No role exists for this company")
  | .ok (some role) =>
    match resolvePermissions s data with
    | .error e => .error e
    | .ok perms =>
      let updated := { role with user_permissions := perms }
      let roles2 := s.roles.map (fun r => if r.id == role.id then updated else r)
      .ok (updated, { s with roles := roles2 })

/-- Insert a `Department` row: fault, else unique-violation on
`(name, company_id)` (constraint `department_name`), else append. -/
def insertDepartment (s : Store) (nm cid : String) :
    Except String (Department × Store) :=
  match s.fault with
  | some m => .error m
  | none =>
    if s.departments.any (fun d => d.name == nm && d.company_id == cid) then
      .error (pgUniqueViolationMsg "department_name" nm cid)
    else
      let d : Department := { id := nextId (s.departments.map (fun d => d.id)),
                              name := nm, company_id := cid }
      .ok (d, { s with departments := s.departments ++ [d] })

/-- `create_department` (profile_service.py lines 328-354): requires the
`create_departments` permission, then inserts the lower-cased name with
`company_id=current_user.id` (the raw caller id, not the effective company).
The except block re-raises only when the error text contains
`department_name` and the `Key \((\w+)\)=\((\w+)\)` regex matches; otherwise
the function returns `None`. -/
def create_department (current_user : User) (data : DepartmentCreate)
    (s : Store) : Except Err (Option Department × Store) :=
  match check_permission current_user "create_departments" with
  | .error e => .error e
  | .ok _ =>
    match insertDepartment s (pyLower data.name) current_user.id with
    | .ok (d, s2) => .ok (some d, s2)
    | .error e =>
      if strContains e "department_name" then
        match reSearchKeyVal e with
        | some kv =>
          .error (.exc ("A department with this " ++ kv.1 ++ " '" ++ kv.2 ++
            "' already exists for this company"))
        | none => .ok (none, s)
      else .ok (none, s)

/-- `get_company_departments` (profile_service.py lines 357-364): the rows of
the effective company, with no permission gate. -/
def get_company_departments (current_user : User) (s : Store) :
    List Department :=
  let company_id := effectiveCompany current_user
  s.departments.filter (fun d => some d.company_id == company_id)

/-- `delete_company_department` (profile_service.py lines 367-393): requires
`delete_departments`; selects strictly by (effective company id, department
id); raises `HTTPException(404, ...)` when there is no such row; else deletes
that row. -/
def delete_company_department (department_id : Nat) (current_user : User)
    (s : Store) : Except Err Store :=
  match check_permission current_user "delete_departments" with
  | .error e => .error e
  | .ok _ =>
    let company_id := effectiveCompany current_user
    match scalarOneOrNone (s.departments.filter
        (fun d => some d.company_id == company_id && d.id == department_id)) with
    | .error e => .error e
    | .ok none =>
      .error (.httpException 404
        ("Department with ID " ++ toString department_id ++ " not found"))
    | .ok (some d) => .ok { s with departments := s.departments.erase d }

/-- Attribute lookup on a `NoPostCreate` payload as Python performs it: the
model declares only `no_post_list`, so any other attribute raises
`AttributeError`. -/
def NoPostCreate.getattr (d : NoPostCreate) (attr : String) : Except Err String :=
  if attr = "no_post_list" then .ok d.no_post_list
  else .error (.attributeError
    ("'NoPostCreate' object has no attribute '" ++ attr ++ "'"))

/-- `create_no_post_list` (profile_service.py lines 396-427): resolves the
effective company, then line 400 constructs a dead `NoPost` from `data.name`
— a field `NoPostCreate` does not have, so Python raises `AttributeError`
there.  The remaining (unreached) code checks for an existing record of the
company and either updates its `no_post_list` field in place or inserts a
new row.  There is no permission gate. -/
def create_no_post_list (data : NoPostCreate) (current_user : User) (s : Store) :
    Except Err (NoPost × Store) :=
  let company_id := effectiveCompany current_user
  match NoPostCreate.getattr data "name" with
  | .error e => .error e
  | .ok nm =>
    let _dead : NoPost := { id := 0, company_id := company_id,
                            no_post_list := pyLower nm }
    match scalarOneOrNone (s.no_posts.filter
        (fun np => np.company_id == company_id)) with
    | .error e => .error e
    | .ok (some existing) =>
      let updated := { existing with no_post_list := data.no_post_list }
      let rows2 := s.no_posts.map (fun np => if np.id == existing.id then updated else np)
      .ok (updated, { s with no_posts := rows2 })
    | .ok none =>
      let np : NoPost := { id := nextId (s.no_posts.map (fun np => np.id)),
                           company_id := company_id,
                           no_post_list := data.no_post_list }
      .ok (np, { s with no_posts := s.no_posts ++ [np] })

/-- Insert an `Outlet` row: fault, else unique-violation on
`(name, company_id)` (constraint `outlet_name`), else append. -/
def insertOutlet (s : Store) (nm cid : String) : Except String (Outlet × Store) :=
  match s.fault with
  | some m => .error m
  | none =>
    if s.outlets.any (fun o => o.name == nm && o.company_id == cid) then
      .error (pgUniqueViolationMsg "outlet_name" nm cid)
    else
      let o : Outlet := { id := nextId (s.outlets.map (fun o => o.id)),
                          name := nm, company_id := cid }
      .ok (o, { s with outlets := s.outlets ++ [o] })

/-- `create_outlet` (profile_service.py lines 439-465): requires
`create_outlets`, inserts the lower-cased name with
`company_id=current_user.id`; the except block mirrors the department one
with marker `outlet_name`. -/
def create_outlet (current_user : User) (data : DepartmentCreate) (s : Store) :
    Except Err (Option Outlet × Store) :=
  match check_permission current_user "create_outlets" with
  | .error e => .error e
  | .ok _ =>
    match insertOutlet s (pyLower data.name) current_user.id with
    | .ok (o, s2) => .ok (some o, s2)
    | .error e =>
      if strContains e "outlet_name" then
        match reSearchKeyVal e with
        | some kv =>
          .error (.exc ("Outlet with this " ++ kv.1 ++ " '" ++ kv.2 ++
            "' already exists for this company"))
        | none => .ok (none, s)
      else .ok (none, s)

/-- `delete_company_outlet` (profile_service.py lines 477-503): requires
`delete_outlets`; selects strictly by (effective company id, outlet id);
404 when absent, else deletes. -/
def delete_company_outlet (outlet_id : Nat) (current_user : User) (s : Store) :
    Except Err Store :=
  match check_permission current_user "delete_outlets" with
  | .error e => .error e
  | .ok _ =>
    let company_id := effectiveCompany current_user
    match scalarOneOrNone (s.outlets.filter
        (fun o => some o.company_id == company_id && o.id == outlet_id)) with
    | .error e => .error e
    | .ok none =>
      .error (.httpException 404
        ("Outlet with ID " ++ toString outlet_id ++ " not found"))
    | .ok (some o) => .ok { s with outlets := s.outlets.erase o }

/-- Modelled from the spec: `assign_role_to_user` is called by the router
(src/app/routers/user_router.py line 133) but its definition is absent from
src/app/services/profile_service.py.  Spec section 4.4 describes the
reference behavior: NotFound when the target user does not exist, NotFound
when the role does not exist, then set `user.role_id = role.id`, persist and
return a confirmation; the spec notes the reference path omits verifying
that the role's `company_id` matches the assigning company. -/
def assign_role_to_user (user_id : String) (role_id : Nat)
    (current_user : User) (s : Store) : Except Err (String × Store) :=
  match s.users.find? (fun u => u.id == user_id) with
  | none => .error (.httpException 404 "User not found")
  | some _ =>
    match s.roles.find? (fun r => r.id == role_id) with
    | none => .error (.httpException 404 "Role not found")
    | some role =>
      let users2 := s.users.map
        (fun u => if u.id == user_id then { u with role_id := some role.id } else u)
      .ok ("Role assigned", { s with users := users2 })

/-- Whether a result is a `PermissionDenied`-style failure, i.e. the
`HTTPException` with status 403 that `check_permission` raises. -/
def resultIsPermissionDenied {α : Type} : Except Err α → Bool
  | .error (.httpException 403 _) => true
  | _ => false

/-! Concrete fixtures used by the witness and counterexample theorems. -/

/-- A permission-dict snapshot for `create_departments`. -/
def permCreateDepartments : Permission :=
  { id := 1, name := "create_departments", description := "create departments" }

/-- A role of company c1 holding just `create_departments`. -/
def roleWaiterC1 : Role :=
  { id := 1, name := "waiter", company_id := "c1",
    user_permissions := [permCreateDepartments] }

/-- A staff member of company c1 whose loaded role is `roleWaiterC1`. -/
def staffWithRole : User :=
  { id := "s1", user_type := .staff, company_id := some "c1",
    role_id := some 1, role := some roleWaiterC1 }

/-- A role of company c1 granting the four department/outlet permissions. -/
def roleManagerC1 : Role :=
  { id := 2, name := "manager", company_id := "c1", user_permissions :=
    [{ id := 1, name := "create_departments", description := "create departments" },
     { id := 2, name := "create_outlets", description := "create outlets" },
     { id := 3, name := "delete_departments", description := "delete departments" },
     { id := 4, name := "delete_outlets", description := "delete outlets" }] }

/-- A staff member of company c1 holding `roleManagerC1`. -/
def c2Staff : User :=
  { id := "s1", user_type := .staff, company_id := some "c1",
    role_id := some 2, role := some roleManagerC1 }

/-- An empty database. -/
def emptyStore : Store :=
  { permissions := [], roles := [], users := [], departments := [],
    outlets := [], no_posts := [], fault := none }

/-- An existing role (waiter, c1) for the duplicate-creation scenario. -/
def c4Role : Role :=
  { id := 1, name := "waiter", company_id := "c1", user_permissions := [] }

/-- A store already holding `c4Role`. -/
def c4Store : Store :=
  { emptyStore with roles := [c4Role] }

/-- The COMPANY user that owns company c1. -/
def companyC1 : User :=
  { id := "c1", user_type := .company, company_id := none,
    role_id := none, role := none }

/-- The COMPANY user that owns company c2. -/
def companyC2 : User :=
  { id := "c2", user_type := .company, company_id := none,
    role_id := none, role := none }

/-- A catalog entry used by the unknown-permission scenario. -/
def c3Perm : Permission :=
  { id := 1, name := "create_departments", description := "create departments" }

/-- A role of company c1 that already holds `c3Perm`. -/
def c3Role : Role :=
  { id := 1, name := "waiter", company_id := "c1", user_permissions := [c3Perm] }

/-- A store with one catalog entry and one role. -/
def c3Store : Store :=
  { emptyStore with permissions := [c3Perm], roles := [c3Role] }

/-- A staff member of company A with no role loaded. -/
def c7Staff : User :=
  { id := "u1", user_type := .staff, company_id := some "A",
    role_id := none, role := none }

/-- A role owned by company B. -/
def c7RoleB : Role :=
  { id := 7, name := "chef", company_id := "B", user_permissions := [] }

/-- The COMPANY user that owns company A. -/
def c7CompanyA : User :=
  { id := "A", user_type := .company, company_id := none,
    role_id := none, role := none }

/-- A store holding company B's role and company A's staff member. -/
def c7Store : Store :=
  { emptyStore with roles := [c7RoleB], users := [c7Staff] }

/-- `c7Staff` after the role assignment wrote `role_id := 7`. -/
def c7StaffAssigned : User :=
  { c7Staff with role_id := some 7 }

/-- A staff member with no role at all: `has_permission` is false for every
permission name. -/
def noRoleUser : User :=
  { id := "s2", user_type := .staff, company_id := some "c1",
    role_id := none, role := none }

/-- A company user holding the delete permissions through a loaded role. -/
def c6User : User :=
  { id := "c1", user_type := .company, company_id := none, role_id := some 2,
    role := some roleManagerC1 }

/-- A store whose only department and outlet belong to another company. -/
def c6Store : Store :=
  { emptyStore with
      departments := [{ id := 5, name := "kitchen", company_id := "other" }],
      outlets := [{ id := 6, name := "bar", company_id := "other" }] }

/-- A store whose next insert raises a non-uniqueness error. -/
def c10Store : Store :=
  { emptyStore with fault := some "connection reset by peer" }

/-- A company user holding create permissions, for the fault scenario. -/
def c10User : User :=
  { id := "c1", user_type := .company, company_id := none, role_id := some 2,
    role := some roleManagerC1 }

/-! Theorems. -/

/-- C1: `hasPermission(user, p)` is false whenever the user's role is unset or
the role's permission list is empty, and otherwise is true iff `p` appears
among the `name` fields of the role's permission entries.  `has_permission`
is a plain Bool-valued function of `user` and `p`, so it is pure by
construction. -/
theorem c1_has_permission_characterization (user : User) (p : String) :
    (user.role = none → has_permission user p = false) ∧
    (∀ role, user.role = some role → role.user_permissions = [] →
      has_permission user p = false) ∧
    (∀ role, user.role = some role →
      (has_permission user p = true ↔
        p ∈ role.user_permissions.map (fun q => q.name))) := by
  refine ⟨fun h => by simp [has_permission, h], fun role h he => ?_, fun role h => ?_⟩
  · simp [has_permission, h, he]
  · by_cases he : role.user_permissions = []
    · simp [has_permission, h, he]
    · simp only [has_permission, h]
      rw [if_neg (by simpa [List.isEmpty_iff] using he)]
      simp only [List.any_eq_true, List.mem_map, beq_iff_eq]

/-- C1 witness: the characterization applied to a staff member whose role
holds `create_departments`. -/
theorem c1_has_permission_characterization_witness :
    has_permission staffWithRole "create_departments" = true :=
  ((c1_has_permission_characterization staffWithRole "create_departments").2.2
    roleWaiterC1 rfl).mpr (by decide)

/-- C2 (code bug): `create_department` and `create_outlet` store
`company_id = current_user.id` (profile_service.py lines 335 and 446), not
the effective company.  A staff member of company c1 with the create
permissions therefore gets rows scoped to their own user id s1, which the
claim (and spec section 4.5) says must be c1.  The reads and deletes of the
same file do resolve the effective company, so staff-created rows are
invisible to them. -/
theorem c2_create_scoped_to_raw_user_id :
    c2Staff.user_type = UserType.staff ∧
    effectiveCompany c2Staff = some "c1" ∧
    create_department c2Staff { name := "Kitchen" } emptyStore =
      .ok (some { id := 1, name := "kitchen", company_id := "s1" },
        { emptyStore with
            departments := [{ id := 1, name := "kitchen", company_id := "s1" }] }) ∧
    create_outlet c2Staff { name := "Bar" } emptyStore =
      .ok (some { id := 1, name := "bar", company_id := "s1" },
        { emptyStore with
            outlets := [{ id := 1, name := "bar", company_id := "s1" }] }) ∧
    ("s1" : String) ≠ "c1" :=
  ⟨rfl, rfl, rfl, rfl, by decide⟩

/-- C3 counterexample: with the catalog lacking the name `no_such`, the
update fails not with an `UnknownPermission` error carrying the name but
with the `AttributeError` of reading `.id` on `None`
(profile_service.py line 30); the error text does not mention the unknown
name at all. -/
theorem c3_unknown_name_error_lacks_name :
    update_role_with_permissions 1 ["no_such"] companyC1 c3Store =
      .error (.attributeError noneTypeIdMsg) ∧
    strContains noneTypeIdMsg "no_such" = false :=
  ⟨rfl, by decide⟩

/-- C4 (code bug): the duplicate-role handler of `create_staff_role`
(profile_service.py lines 279-285) requires the regex
`Key \((\w+)\)=\((\w+)\)` to match, but the `role_name` constraint is
composite, so PostgreSQL's detail reads `Key (name, company_id)=(waiter, c1)`
and `\w+` cannot match `name, company_id`.  The except block falls through,
the function returns `None`, and no DuplicateRole-style error reaches the
caller.  Creating the same name under another company succeeds. -/
theorem c4_duplicate_role_swallowed_other_company_ok :
    create_staff_role { name := "waiter" } companyC1 c4Store = .ok (none, c4Store) ∧
    create_staff_role { name := "waiter" } companyC2 c4Store =
      .ok (some { id := 2, name := "waiter", company_id := "c2" },
        { c4Store with roles :=
          [c4Role, { id := 2, name := "waiter", company_id := "c2",
                     user_permissions := [] }] }) :=
  ⟨rfl, rfl⟩

/-- C7 (code bug, modelled from the spec): the reference
`assign_role_to_user` fails with 404 for a missing user or role, and on
success writes `role_id`; it performs no company check, so company A
assigning company B's role succeeds instead of being rejected. -/
theorem c7_assign_role_accepts_cross_tenant :
    assign_role_to_user "zz" 7 c7CompanyA c7Store =
      .error (.httpException 404 "User not found") ∧
    assign_role_to_user "u1" 99 c7CompanyA c7Store =
      .error (.httpException 404 "Role not found") ∧
    c7RoleB.company_id = "B" ∧ c7CompanyA.id = "A" ∧ ("B" : String) ≠ "A" ∧
    assign_role_to_user "u1" 7 c7CompanyA c7Store =
      .ok ("Role assigned", { c7Store with users := [c7StaffAssigned] }) :=
  ⟨rfl, rfl, rfl, rfl, by decide, rfl⟩

/-- C8 (code bug): every call of `create_no_post_list` raises
`AttributeError` at the dead construction `data.name.lower()` of
profile_service.py line 400 — `NoPostCreate` has no field `name` — before
the existence check runs, so the documented upsert behavior is unreachable. -/
theorem c8_create_no_post_list_always_raises (data : NoPostCreate) (u : User)
    (s : Store) :
    create_no_post_list data u s =
      .error (.attributeError "'NoPostCreate' object has no attribute 'name'") :=
  rfl

/-- C9 counterexample: a staff member with no role (so `has_permission` is
false for every permission name) calling the no-post-list create is not
turned away with the 403 `PermissionDenied` failure the claim requires for
every tenant-scoped mutating operation: `create_no_post_list` contains no
`check_permission` call (it fails with the line-400 `AttributeError`
instead). -/
theorem c9_no_post_list_not_gated :
    noRoleUser.role = none ∧
    has_permission noRoleUser "create_no_post_list" = false ∧
    resultIsPermissionDenied
      (create_no_post_list { no_post_list := "bar" } noRoleUser emptyStore) = false :=
  ⟨rfl, rfl, rfl⟩

/-- A list whose mapped keys are distinct has at most one element with a
given key: the filter by that key is empty or a singleton whose element
carries the key. -/
theorem filter_name_cases (l : List Permission) (n : String)
    (h : (l.map (fun p => p.name)).Nodup) :
    l.filter (fun p => p.name == n) = [] ∨
      ∃ p, l.filter (fun p => p.name == n) = [p] ∧ p.name = n ∧ p ∈ l := by
  induction l with
  | nil => exact Or.inl rfl
  | cons x xs ih =>
    simp only [List.map_cons, List.nodup_cons] at h
    obtain ⟨hx, hxs⟩ := h
    by_cases heq : x.name = n
    · right
      refine ⟨x, ?_, heq, List.mem_cons_self x xs⟩
      rw [List.filter_cons_of_pos (by simpa using heq)]
      have hnil : xs.filter (fun p => p.name == n) = [] := by
        rw [List.filter_eq_nil_iff]
        intro p hp hbeq
        exact hx (List.mem_map.mpr ⟨p, hp, by rw [beq_iff_eq] at hbeq; rw [hbeq, heq]⟩)
      rw [hnil]
    · rw [List.filter_cons_of_neg (by simpa using heq)]
      rcases ih hxs with hnil | ⟨p, hf, hn, hm⟩
      · exact Or.inl hnil
      · exact Or.inr ⟨p, hf, hn, List.mem_cons_of_mem x hm⟩

/-- When some requested name has no catalog entry, the resolution loop of
`update_role_with_permissions` aborts with the NoneType `AttributeError`
(the lookups before the missing one succeed, and nothing is written). -/
theorem resolve_error_of_missing (s : Store)
    (hnd : (s.permissions.map (fun p => p.name)).Nodup) :
    ∀ names : List String, (∃ n ∈ names, ∀ p ∈ s.permissions, p.name ≠ n) →
      resolvePermissions s names = .error (.attributeError noneTypeIdMsg) := by
  intro names
  induction names with
  | nil => rintro ⟨n, hn, -⟩; cases hn
  | cons m rest ih =>
    rintro ⟨n, hn, hnone⟩
    rcases filter_name_cases s.permissions m hnd with hf | ⟨p, hf, hpn, hpm⟩
    · simp [resolvePermissions, get_permission_by_name, hf, scalarOneOrNone]
    · have hnr : n ∈ rest := by
        rcases List.mem_cons.mp hn with rfl | hr
        · exact absurd hpn (hnone p hpm)
        · exact hr
      have hrec := ih ⟨n, hnr, hnone⟩
      simp [resolvePermissions, get_permission_by_name, hf, scalarOneOrNone, hrec]

/-- C3 amended: a permission list containing a name with no catalog entry
makes `setPermissions` fail as a whole — with the NoneType `AttributeError`
of profile_service.py line 30, which does not carry the unknown name, rather
than a typed `UnknownPermission(name)` — and the failure happens before any
assignment or commit, so the role's stored permission list is unchanged (the
operation returns no new store state) and no partially resolved list is ever
applied. -/
theorem c3_unknown_name_fails_whole_update (role_id : Nat) (names : List String)
    (current_user : User) (s : Store) (role : Role)
    (hrole : s.roles.filter
      (fun r => r.company_id == current_user.id && r.id == role_id) = [role])
    (hnd : (s.permissions.map (fun p => p.name)).Nodup)
    (hbad : ∃ n ∈ names, ∀ p ∈ s.permissions, p.name ≠ n) :
    update_role_with_permissions role_id names current_user s =
      .error (.attributeError noneTypeIdMsg) := by
  have hres := resolve_error_of_missing s hnd names hbad
  simp [update_role_with_permissions, hrole, scalarOneOrNone, hres]

/-- C3 witness: a request naming one resolvable and one missing permission
fails with the NoneType `AttributeError` and updates nothing. -/
theorem c3_unknown_name_fails_whole_update_witness :
    update_role_with_permissions 1 ["create_departments", "missing_perm"]
      companyC1 c3Store = .error (.attributeError noneTypeIdMsg) :=
  c3_unknown_name_fails_whole_update 1 ["create_departments", "missing_perm"]
    companyC1 c3Store c3Role (by decide) (by decide) (by decide)

/-- The records built for the missing pairs carry exactly the generated
names of those pairs, whatever ids they are numbered with. -/
theorem numberFrom_map_name (b : Nat) (l : List (String × String)) :
    (numberFrom b l).map (fun p => p.name) =
      l.map (fun ar => generate_permission ar.1 ar.2) := by
  induction l generalizing b with
  | nil => rfl
  | cons ar rest ih => simp [numberFrom, ih]

/-- Numbering produces no records exactly when there are no missing pairs. -/
theorem numberFrom_eq_nil_iff (b : Nat) (l : List (String × String)) :
    numberFrom b l = [] ↔ l = [] := by
  cases l <;> simp [numberFrom]

/-- Filtering through a key function commutes with mapping that function. -/
theorem map_filter_eq {α β : Type} (f : α → β) (p : β → Bool) (l : List α) :
    (l.filter (fun a => p (f a))).map f = (l.map f).filter p := by
  induction l with
  | nil => rfl
  | cons a l ih =>
    by_cases h : p (f a) <;> simp [List.filter_cons, h, ih]

/-- Every action paired with every resource appears in the cross product. -/
theorem mem_crossPairs {a r : String} {as rs : List String}
    (ha : a ∈ as) (hr : r ∈ rs) : (a, r) ∈ crossPairs as rs := by
  induction as with
  | nil => cases ha
  | cons x xs ih =>
    rcases List.mem_cons.mp ha with rfl | h
    · exact List.mem_append.mpr (Or.inl (List.mem_map.mpr ⟨r, hr, rfl⟩))
    · exact List.mem_append.mpr (Or.inr (ih h))

/-- A member of the cross product is an action of the first list paired with
a resource of the second. -/
theorem crossPairs_mem_dest {ar : String × String} {as rs : List String}
    (h : ar ∈ crossPairs as rs) : ar.1 ∈ as ∧ ar.2 ∈ rs := by
  induction as with
  | nil => cases h
  | cons x xs ih =>
    rcases List.mem_append.mp h with hl | hr
    · obtain ⟨r, hr, rfl⟩ := List.mem_map.mp hl
      exact ⟨List.mem_cons_self x xs, hr⟩
    · obtain ⟨h1, h2⟩ := ih hr
      exact ⟨List.mem_cons_of_mem x h1, h2⟩

/-- With nothing missing, reconciliation inserts nothing and keeps the
state: the empty-batch branch of `pre_create_permissions`. -/
theorem pre_create_of_missing_nil (actions resources : List String) (s1 : Store)
    (h : missingPairs actions resources s1 = []) :
    pre_create_permissions actions resources s1 = (s1, 0) := by
  unfold pre_create_permissions
  rw [h]
  rfl

/-- After reconciliation the stored permission names are the old ones
followed by exactly the generated names that were missing. -/
theorem pre_create_names (actions resources : List String) (s : Store) :
    (pre_create_permissions actions resources s).1.permissions.map
        (fun p => p.name) =
      s.permissions.map (fun p => p.name) ++
        (permNames actions resources).filter
          (fun nm => !((s.permissions.map (fun p => p.name)).contains nm)) := by
  have hmap : ∀ b : Nat,
      (numberFrom b (missingPairs actions resources s)).map (fun p => p.name) =
        (permNames actions resources).filter
          (fun nm => !((s.permissions.map (fun p => p.name)).contains nm)) := by
    intro b
    rw [numberFrom_map_name]
    exact map_filter_eq (fun ar => generate_permission ar.1 ar.2)
      (fun nm => !((s.permissions.map (fun p => p.name)).contains nm))
      (crossPairs actions resources)
  unfold pre_create_permissions
  by_cases h : (numberFrom (nextId (s.permissions.map (fun p => p.id)))
      (missingPairs actions resources s)).isEmpty
  · simp only [h, if_pos]
    rw [← hmap (nextId (s.permissions.map (fun p => p.id)))]
    rw [List.isEmpty_iff.mp h]
    simp
  · simp only [h, if_neg, Bool.false_eq_true, not_false_iff]
    simp only [List.map_append]
    rw [hmap]

/-- C5: with distinct generated names and a duplicate-free catalog, one
reconciliation leaves every `"{action}_{resource}"` name present exactly
once, and a second reconciliation inserts zero records and leaves the state
unchanged — the existence check runs before any insert, so the operation is
idempotent. -/
theorem c5_reconcile_once_each_then_idempotent (actions resources : List String)
    (s : Store)
    (hN : (permNames actions resources).Nodup)
    (hs : (s.permissions.map (fun p => p.name)).Nodup) :
    (∀ a ∈ actions, ∀ r ∈ resources,
      ((pre_create_permissions actions resources s).1.permissions.map
        (fun p => p.name)).count (generate_permission a r) = 1) ∧
    (pre_create_permissions actions resources
      (pre_create_permissions actions resources s).1).2 = 0 ∧
    (pre_create_permissions actions resources
      (pre_create_permissions actions resources s).1).1 =
      (pre_create_permissions actions resources s).1 := by
  have hcount : ∀ a ∈ actions, ∀ r ∈ resources,
      ((pre_create_permissions actions resources s).1.permissions.map
        (fun p => p.name)).count (generate_permission a r) = 1 := by
    intro a ha r hr
    rw [pre_create_names, List.count_append]
    set ex := s.permissions.map (fun p => p.name) with hex
    have hmemN : generate_permission a r ∈ permNames actions resources :=
      List.mem_map.mpr ⟨(a, r), mem_crossPairs ha hr, rfl⟩
    by_cases hmem : generate_permission a r ∈ ex
    · have h1 : ex.count (generate_permission a r) = 1 :=
        Nat.le_antisymm (List.nodup_iff_count_le_one.mp hs _)
          (List.count_pos_iff.mpr hmem)
      have h2 : ((permNames actions resources).filter
          (fun nm => !(ex.contains nm))).count (generate_permission a r) = 0 := by
        rw [List.count_eq_zero]
        intro hin
        have := (List.mem_filter.mp hin).2
        rw [Bool.not_eq_true', ← Bool.not_eq_true] at this
        exact this (by simpa [List.contains, List.elem_iff] using hmem)
      omega
    · have h1 : ex.count (generate_permission a r) = 0 :=
        List.count_eq_zero.mpr hmem
      have hinf : generate_permission a r ∈ (permNames actions resources).filter
          (fun nm => !(ex.contains nm)) := by
        refine List.mem_filter.mpr ⟨hmemN, ?_⟩
        simp only [Bool.not_eq_true']
        rw [← Bool.not_eq_true]
        intro hc
        exact hmem (by simpa [List.contains, List.elem_iff] using hc)
      have h2 : ((permNames actions resources).filter
          (fun nm => !(ex.contains nm))).count (generate_permission a r) = 1 :=
        Nat.le_antisymm (List.nodup_iff_count_le_one.mp (hN.filter _) _)
          (List.count_pos_iff.mpr hinf)
      omega
  refine ⟨hcount, ?_⟩
  have hall : ∀ ar ∈ crossPairs actions resources,
      ((pre_create_permissions actions resources s).1.permissions.map
        (fun p => p.name)).contains (generate_permission ar.1 ar.2) = true := by
    intro ar har
    obtain ⟨h1, h2⟩ := crossPairs_mem_dest har
    have := hcount ar.1 h1 ar.2 h2
    have hmem : generate_permission ar.1 ar.2 ∈
        (pre_create_permissions actions resources s).1.permissions.map
          (fun p => p.name) := by
      rw [← List.count_pos_iff, this]
      omega
    simpa [List.contains, List.elem_iff] using hmem
  have hmiss : missingPairs actions resources
      (pre_create_permissions actions resources s).1 = [] := by
    rw [missingPairs, List.filter_eq_nil_iff]
    intro ar har
    simp only [Bool.not_eq_true']
    rw [hall ar har]
    simp
  rw [pre_create_of_missing_nil actions resources _ hmiss]
  exact ⟨rfl, rfl⟩

/-- C5 witness: two actions and two resources reconciled into an empty
store; `create_departments` is present exactly once and a second run
inserts nothing. -/
theorem c5_reconcile_once_each_then_idempotent_witness :
    ((pre_create_permissions ["create", "delete"] ["departments", "outlets"]
      emptyStore).1.permissions.map (fun p => p.name)).count
        (generate_permission "create" "departments") = 1 ∧
    (pre_create_permissions ["create", "delete"] ["departments", "outlets"]
      (pre_create_permissions ["create", "delete"] ["departments", "outlets"]
        emptyStore).1).2 = 0 := by
  have h := c5_reconcile_once_each_then_idempotent ["create", "delete"]
    ["departments", "outlets"] emptyStore (by decide) (by decide)
  exact ⟨h.1 "create" (by decide) "departments" (by decide), h.2.1⟩

/-- Case analysis for a `scalar_one_or_none` over a filtered table: no hit,
one hit (which is in the table and satisfies the predicate), or several. -/
theorem scalar_filter_cases {α : Type} (l : List α) (p : α → Bool) :
    (l.filter p = [] ∧ scalarOneOrNone (l.filter p) = .ok none) ∨
    (∃ a, l.filter p = [a] ∧ a ∈ l ∧ p a = true ∧
      scalarOneOrNone (l.filter p) = .ok (some a)) ∨
    (∃ a, a ∈ l ∧ p a = true ∧
      scalarOneOrNone (l.filter p) = .error .multipleResults) := by
  cases hF : l.filter p with
  | nil => exact Or.inl ⟨rfl, rfl⟩
  | cons a F =>
    have ha : a ∈ l.filter p := by rw [hF]; exact List.mem_cons_self a F
    obtain ⟨h1, h2⟩ := List.mem_filter.mp ha
    cases F with
    | nil => exact Or.inr (Or.inl ⟨a, rfl, h1, h2, rfl⟩)
    | cons b F2 => exact Or.inr (Or.inr ⟨a, h1, h2, rfl⟩)

/-- C6: the deletes look up strictly by (effective company, id).  The 404
failure happens exactly when no row of the caller's effective company has
the requested id — in particular when the id belongs to another company —
and on success the deleted row is one of the effective company with that id
and nothing else changes. -/
theorem c6_delete_strictly_company_scoped (did oid : Nat) (u : User) (s : Store)
    (hpd : has_permission u "delete_departments" = true)
    (hpo : has_permission u "delete_outlets" = true) :
    (delete_company_department did u s =
        .error (.httpException 404
          ("Department with ID " ++ toString did ++ " not found")) ↔
      ∀ d ∈ s.departments,
        ¬(some d.company_id = effectiveCompany u ∧ d.id = did)) ∧
    (∀ s2, delete_company_department did u s = .ok s2 →
      ∃ d ∈ s.departments, some d.company_id = effectiveCompany u ∧ d.id = did ∧
        s2 = { s with departments := s.departments.erase d }) ∧
    (delete_company_outlet oid u s =
        .error (.httpException 404
          ("Outlet with ID " ++ toString oid ++ " not found")) ↔
      ∀ o ∈ s.outlets,
        ¬(some o.company_id = effectiveCompany u ∧ o.id = oid)) ∧
    (∀ s2, delete_company_outlet oid u s = .ok s2 →
      ∃ o ∈ s.outlets, some o.company_id = effectiveCompany u ∧ o.id = oid ∧
        s2 = { s with outlets := s.outlets.erase o }) := by
  have hckd : check_permission u "delete_departments" = .ok () := by
    simp [check_permission, hpd]
  have hcko : check_permission u "delete_outlets" = .ok () := by
    simp [check_permission, hpo]
  have hde : delete_company_department did u s =
      match scalarOneOrNone (s.departments.filter
        (fun d => some d.company_id == effectiveCompany u && d.id == did)) with
      | .error e => .error e
      | .ok none => .error (.httpException 404
          ("Department with ID " ++ toString did ++ " not found"))
      | .ok (some d) => .ok { s with departments := s.departments.erase d } := by
    unfold delete_company_department
    rw [hckd]
  have hoe : delete_company_outlet oid u s =
      match scalarOneOrNone (s.outlets.filter
        (fun o => some o.company_id == effectiveCompany u && o.id == oid)) with
      | .error e => .error e
      | .ok none => .error (.httpException 404
          ("Outlet with ID " ++ toString oid ++ " not found"))
      | .ok (some o) => .ok { s with outlets := s.outlets.erase o } := by
    unfold delete_company_outlet
    rw [hcko]
  have hdep := scalar_filter_cases s.departments
    (fun d => some d.company_id == effectiveCompany u && d.id == did)
  have hout := scalar_filter_cases s.outlets
    (fun o => some o.company_id == effectiveCompany u && o.id == oid)
  refine ⟨?_, ?_, ?_, ?_⟩
  · rcases hdep with ⟨hF, hS⟩ | ⟨d, hF, hdl, hdp, hS⟩ | ⟨d, hdl, hdp, hS⟩
    · rw [hde, hS]
      constructor
      · rintro - d hd ⟨h1, h2⟩
        exact List.filter_eq_nil_iff.mp hF d hd (by simp [h1, h2])
      · intro _
        rfl
    · rw [hde, hS]
      constructor
      · intro habs
        exact absurd habs (by simp)
      · intro hrhs
        simp only [Bool.and_eq_true, beq_iff_eq] at hdp
        exact absurd ⟨hdp.1, hdp.2⟩ (hrhs d hdl)
    · rw [hde, hS]
      constructor
      · intro habs
        exact absurd habs (by simp)
      · intro hrhs
        simp only [Bool.and_eq_true, beq_iff_eq] at hdp
        exact absurd ⟨hdp.1, hdp.2⟩ (hrhs d hdl)
  · rcases hdep with ⟨hF, hS⟩ | ⟨d, hF, hdl, hdp, hS⟩ | ⟨d, hdl, hdp, hS⟩
    · intro s2 habs
      rw [hde, hS] at habs
      exact absurd habs (by simp)
    · intro s2 heq
      rw [hde, hS] at heq
      injection heq with h
      simp only [Bool.and_eq_true, beq_iff_eq] at hdp
      exact ⟨d, hdl, hdp.1, hdp.2, h.symm⟩
    · intro s2 habs
      rw [hde, hS] at habs
      exact absurd habs (by simp)
  · rcases hout with ⟨hF, hS⟩ | ⟨o, hF, hol, hop, hS⟩ | ⟨o, hol, hop, hS⟩
    · rw [hoe, hS]
      constructor
      · rintro - o ho ⟨h1, h2⟩
        exact List.filter_eq_nil_iff.mp hF o ho (by simp [h1, h2])
      · intro _
        rfl
    · rw [hoe, hS]
      constructor
      · intro habs
        exact absurd habs (by simp)
      · intro hrhs
        simp only [Bool.and_eq_true, beq_iff_eq] at hop
        exact absurd ⟨hop.1, hop.2⟩ (hrhs o hol)
    · rw [hoe, hS]
      constructor
      · intro habs
        exact absurd habs (by simp)
      · intro hrhs
        simp only [Bool.and_eq_true, beq_iff_eq] at hop
        exact absurd ⟨hop.1, hop.2⟩ (hrhs o hol)
  · rcases hout with ⟨hF, hS⟩ | ⟨o, hF, hol, hop, hS⟩ | ⟨o, hol, hop, hS⟩
    · intro s2 habs
      rw [hoe, hS] at habs
      exact absurd habs (by simp)
    · intro s2 heq
      rw [hoe, hS] at heq
      injection heq with h
      simp only [Bool.and_eq_true, beq_iff_eq] at hop
      exact ⟨o, hol, hop.1, hop.2, h.symm⟩
    · intro s2 habs
      rw [hoe, hS] at habs
      exact absurd habs (by simp)

/-- C6 witness: a company user with the delete permissions asking for
another company's department and outlet ids gets 404 for both. -/
theorem c6_delete_strictly_company_scoped_witness :
    delete_company_department 5 c6User c6Store =
      .error (.httpException 404
        ("Department with ID " ++ toString 5 ++ " not found")) ∧
    delete_company_outlet 6 c6User c6Store =
      .error (.httpException 404
        ("Outlet with ID " ++ toString 6 ++ " not found")) := by
  have h := c6_delete_strictly_company_scoped 5 6 c6User c6Store
    (by decide) (by decide)
  exact ⟨h.1.mpr (by decide), h.2.2.1.mpr (by decide)⟩

/-- C9 amended: `check_permission` fails with the 403
`Permission denied: {name}` `HTTPException` exactly when `has_permission` is
false, and it gates create/delete department and create/delete outlet; the
no-post-list create has no permission gate at all (the spec's interface
table lists it as deliberately open), and the company-scoped read path is
not gated either. -/
theorem c9_check_permission_gating (u : User) (p : String)
    (dc : DepartmentCreate) (np : NoPostCreate) (s : Store) (i : Nat) :
    (check_permission u p =
        .error (.httpException 403 ("Permission denied: " ++ p)) ↔
      has_permission u p = false) ∧
    (has_permission u "create_departments" = false →
      create_department u dc s =
        .error (.httpException 403
          ("Permission denied: " ++ "create_departments"))) ∧
    (has_permission u "delete_departments" = false →
      delete_company_department i u s =
        .error (.httpException 403
          ("Permission denied: " ++ "delete_departments"))) ∧
    (has_permission u "create_outlets" = false →
      create_outlet u dc s =
        .error (.httpException 403 ("Permission denied: " ++ "create_outlets"))) ∧
    (has_permission u "delete_outlets" = false →
      delete_company_outlet i u s =
        .error (.httpException 403 ("Permission denied: " ++ "delete_outlets"))) ∧
    (resultIsPermissionDenied (create_no_post_list np u s) = false) ∧
    (get_company_departments u s =
      s.departments.filter (fun d => some d.company_id == effectiveCompany u)) := by
  refine ⟨?_, ?_, ?_, ?_, ?_, rfl, rfl⟩
  · unfold check_permission
    cases h : has_permission u p <;> simp [h]
  · intro h
    simp [create_department, check_permission, h]
  · intro h
    simp [delete_company_department, check_permission, h]
  · intro h
    simp [create_outlet, check_permission, h]
  · intro h
    simp [delete_company_outlet, check_permission, h]

/-- C9 witness: the gate applied to the role-less staff member. -/
theorem c9_check_permission_gating_witness :
    create_department noRoleUser { name := "kitchen" } emptyStore =
      .error (.httpException 403
        ("Permission denied: " ++ "create_departments")) :=
  (c9_check_permission_gating noRoleUser "x" { name := "kitchen" }
    { no_post_list := "y" } emptyStore 0).2.1 rfl

/-- C10: when the insert inside the try block raises an error whose text
lacks the constraint name or the `Key (k)=(v)` fragment the handler's regex
expects, the except blocks of `create_staff_role`, `create_department` and
`create_outlet` complete without re-raising, so each function returns `None`
and an unchanged store: the caller sees neither an exception nor a created
record. -/
theorem c10_unmatched_error_swallowed_returns_none (m : String) (uc u : User)
    (dr : StaffRoleCreate) (dc : DepartmentCreate) (s : Store)
    (hfault : s.fault = some m)
    (hrole : ¬(strContains m "role_name" = true ∧ (reSearchKeyVal m).isSome = true))
    (hdept : ¬(strContains m "department_name" = true ∧
      (reSearchKeyVal m).isSome = true))
    (hout : ¬(strContains m "outlet_name" = true ∧
      (reSearchKeyVal m).isSome = true))
    (hc : uc.user_type = UserType.company)
    (hpd : has_permission u "create_departments" = true)
    (hpo : has_permission u "create_outlets" = true) :
    create_staff_role dr uc s = .ok (none, s) ∧
    create_department u dc s = .ok (none, s) ∧
    create_outlet u dc s = .ok (none, s) := by
  refine ⟨?_, ?_, ?_⟩
  · simp only [create_staff_role, hc]
    rw [if_neg (by simp)]
    simp only [insertRole, hfault]
    cases h1 : strContains m "UniqueViolationError" <;>
      cases h2 : strContains m "role_name" <;> simp [h1, h2]
    cases hkv : reSearchKeyVal m with
    | none => simp
    | some kv => exact absurd ⟨h2, by simp [hkv]⟩ hrole
  · have hck : check_permission u "create_departments" = .ok () := by
      simp [check_permission, hpd]
    simp only [create_department, hck]
    simp only [insertDepartment, hfault]
    cases h2 : strContains m "department_name" <;> simp [h2]
    cases hkv : reSearchKeyVal m with
    | none => simp
    | some kv => exact absurd ⟨h2, by simp [hkv]⟩ hdept
  · have hck : check_permission u "create_outlets" = .ok () := by
      simp [check_permission, hpo]
    simp only [create_outlet, hck]
    simp only [insertOutlet, hfault]
    cases h2 : strContains m "outlet_name" <;> simp [h2]
    cases hkv : reSearchKeyVal m with
    | none => simp
    | some kv => exact absurd ⟨h2, by simp [hkv]⟩ hout

/-- C10 witness: a connection error (no constraint name, no Key fragment)
is swallowed by all three creates, which return `None`. -/
theorem c10_unmatched_error_swallowed_returns_none_witness :
    create_staff_role { name := "chef" } companyC1 c10Store = .ok (none, c10Store) ∧
    create_department c10User { name := "kitchen" } c10Store = .ok (none, c10Store) ∧
    create_outlet c10User { name := "kitchen" } c10Store = .ok (none, c10Store) :=
  c10_unmatched_error_swallowed_returns_none "connection reset by peer"
    companyC1 c10User { name := "chef" } { name := "kitchen" } c10Store
    rfl (by decide) (by decide) (by decide) rfl rfl rfl

end Mohspitality
